import Mathlib

/-!
# Verification of the StockPilot inventory tracker

Shallow embedding of the StockPilot repository (a Next.js inventory tracker
with session-based auth and role-gated CRUD) and proofs about its request
handlers.

Embedding conventions:
* `src/lib/auth.ts`, `src/lib/validators.ts`, `src/app/api/**` are translated
  function-by-function.  The Prisma store is a pair of lists (users, items);
  each handler is a pure function from the resolved user, request data and the
  store to a `Response` (and the new store for mutating handlers).
* External libraries (bcryptjs, jose) are modelled by executable stand-ins
  that honour their documented contracts; JWT tokens are a structure carrying
  payload, timestamps and the signing key, and the cookie-string space is
  partitioned into its semantic classes (`CookieVal`).
* JSON numbers are restricted to integers (the schemas only ever check
  integrality and non-negativity, so no claim depends on float behaviour).
* Timestamps are `Nat` seconds.
-/

/-- `Role` enum of the Prisma schema (values used by `seed.js` and the
handlers: `"ADMIN"`, `"MEMBER"`). -/
inductive Role where
  | ADMIN
  | MEMBER
deriving DecidableEq, Repr

/-- `ItemStatus` enum (`"ACTIVE" | "DISCONTINUED"` in `validators.ts`). -/
inductive ItemStatus where
  | ACTIVE
  | DISCONTINUED
deriving DecidableEq, Repr

def Role.toStr : Role → String
  | .ADMIN => "ADMIN"
  | .MEMBER => "MEMBER"

/-- A row of the `users` table: `{id, email, name, passwordHash, role}`. -/
structure User where
  id : String
  email : String
  name : Option String
  passwordHash : String
  role : Role
deriving DecidableEq, Repr

/-- The public user projection: the prisma `select {id, email, name, role}`
used by `requireUser`, registration and login.  `passwordHash` is not a
field of this structure. -/
structure PublicUser where
  id : String
  email : String
  name : Option String
  role : Role
deriving DecidableEq, Repr

/-- The JSON keys of the public user projection, exactly the prisma
`select {id: true, email: true, name: true, role: true}` in
`src/lib/auth.ts` and the auth routes. -/
def publicUserKeys : List String := ["id", "email", "name", "role"]

def publicOfUser (u : User) : PublicUser :=
  { id := u.id, email := u.email, name := u.name, role := u.role }

/-- A row of the `items` table. -/
structure Item where
  id : String
  ownerId : String
  sku : String
  name : String
  quantity : Int
  minStock : Int
  category : Option String
  location : Option String
  notes : Option String
  status : ItemStatus
  createdAt : Nat
  updatedAt : Nat
deriving DecidableEq, Repr

/-- The relational store (the two Prisma tables). -/
structure Store where
  users : List User
  items : List Item
deriving DecidableEq, Repr

/-! ## Session codec (`src/lib/auth.ts` plus a model of the jose library) -/

/-- `SessionPayload` of `src/lib/auth.ts`: `{userId, email, role}` (role is a
plain string in the TS type). -/
structure SessionPayload where
  userId : String
  email : String
  role : String
deriving DecidableEq, Repr

/-- A JWT produced by jose's `SignJWT`: payload, issued-at, expiration, and
the key it was signed with (modelling the signature). -/
structure Token where
  payload : SessionPayload
  iat : Nat
  exp : Nat
  signedWith : String
deriving DecidableEq, Repr

/-- The cookie-value string space, partitioned into its semantic classes:
the empty string, a string that is not a well-formed JWT, and a well-formed
JWT encoding a `Token`. -/
inductive CookieVal where
  | empty
  | malformed
  | tok (t : Token)
deriving DecidableEq, Repr

/-- `signSession` (`src/lib/auth.ts`): signs the payload with issued-at `now`
and a 7-day (`"7d"`) expiration. -/
def signSession (secret : String) (now : Nat) (p : SessionPayload) : Token :=
  { payload := p, iat := now, exp := now + 7 * 24 * 60 * 60, signedWith := secret }

/-- Model of jose's `jwtVerify` wrapped in the `try`/`catch` of
`verifySession`: `none` on a malformed token, a signature mismatch, or an
expired timestamp (`exp ≤ now`), otherwise the decoded payload. -/
def jwtVerifyCatch (secret : String) (now : Nat) (v : CookieVal) : Option SessionPayload :=
  match v with
  | .empty => none
  | .malformed => none
  | .tok t => if t.signedWith = secret ∧ now < t.exp then some t.payload else none

/-- The skeleton of `verifySession` (`src/lib/auth.ts`), parameterised by the
verifier used inside the `try` block.  `if (!token) return null` fires when
the cookie is absent or its value is the empty string (both falsy in JS). -/
def verifySessionWith (jv : CookieVal → Option SessionPayload)
    (token : Option CookieVal) : Option SessionPayload :=
  match token with
  | none => none
  | some v => if v = .empty then none else jv v

/-- `verifySession` (`src/lib/auth.ts`). -/
def verifySession (secret : String) (now : Nat) (token : Option CookieVal) :
    Option SessionPayload :=
  verifySessionWith (jwtVerifyCatch secret now) token

/-- `prisma.user.findUnique({where: {id}, select: {id, email, name, role}})`. -/
def findUserById (store : Store) (id : String) : Option PublicUser :=
  (store.users.find? (fun u => u.id = id)).map publicOfUser

/-- `requireUser` (`src/lib/auth.ts`) with the verifier abstracted: verify the
session cookie, bail out when `!session?.userId` (no session, or an empty
`userId`, falsy in JS), then look the user up by id in the live store. -/
def requireUserWith (jv : CookieVal → Option SessionPayload) (store : Store)
    (cookie : Option CookieVal) : Option PublicUser :=
  match verifySessionWith jv cookie with
  | none => none
  | some s => if s.userId = "" then none else findUserById store s.userId

/-- `requireUser` (`src/lib/auth.ts`): `getSessionFromRequest` (cookie →
`verifySession`) followed by the authoritative store lookup. -/
def requireUser (secret : String) (now : Nat) (store : Store)
    (cookie : Option CookieVal) : Option PublicUser :=
  requireUserWith (jwtVerifyCatch secret now) store cookie

/-- A `Set-Cookie` record as built in `src/lib/auth.ts` (the fields the
claims mention; `httpOnly`/`sameSite`/`secure`/`path` are constants). -/
structure SetCookie where
  name : String
  value : CookieVal
  maxAge : Nat
deriving DecidableEq, Repr

/-- `buildSessionCookie` (`src/lib/auth.ts`): session cookie with the signed
token and a 7-day max-age. -/
def buildSessionCookie (t : Token) : SetCookie :=
  { name := "sp_session", value := .tok t, maxAge := 60 * 60 * 24 * 7 }

/-- `clearSessionCookie` (`src/lib/auth.ts`): an empty, immediately-expired
replacement cookie (`value: ""`, `maxAge: 0`). -/
def clearSessionCookie : SetCookie :=
  { name := "sp_session", value := .empty, maxAge := 0 }

/-! ## Validators (`src/lib/validators.ts`, zod over a JSON model)

JSON numbers are modelled as integers: the item schemas only ever check
`.int()` and `.min(0)`, so no claim depends on non-integer numbers, and a
non-integer (or `NaN`) coercion result is folded into the failure case. -/

/-- A JSON value as seen by `req.json()` / zod.  `undef` stands for an absent
object key (JS `undefined`). -/
inductive Json where
  | null
  | bool (b : Bool)
  | num (n : Int)
  | str (s : String)
  | undef
deriving DecidableEq, Repr

def isSpaceChar (c : Char) : Bool := c = ' ' ∨ c = '\t' ∨ c = '\n' ∨ c = '\r'

def trimChars (l : List Char) : List Char :=
  ((l.dropWhile isSpaceChar).reverse.dropWhile isSpaceChar).reverse

def digitsToNat (l : List Char) : Nat :=
  l.foldl (fun n c => n * 10 + (c.toNat - Char.toNat '0')) 0

/-- JS `Number(s)` on a string, restricted to integer results: whitespace is
trimmed, the empty string is `0`, an optional-sign decimal integer parses to
its value; every other string maps to `none` (it is `NaN`, or a non-integer
that the schema's `.int()` check rejects anyway). -/
def jsStringToNumber (s : String) : Option Int :=
  let t := trimChars s.data
  if t = [] then some 0
  else if t.all Char.isDigit then some (Int.ofNat (digitsToNat t))
  else if t.head? = some '-' ∧ t.tail ≠ [] ∧ t.tail.all Char.isDigit then
    some (-(Int.ofNat (digitsToNat t.tail)))
  else none

/-- JS `Number(x)` as applied by `z.coerce.number()`: numbers pass through,
strings parse per `jsStringToNumber`, booleans are 0/1, `null` is 0 and
`undefined` is `NaN` (`none`). -/
def jsNumber : Json → Option Int
  | .num n => some n
  | .str s => jsStringToNumber s
  | .bool b => some (if b then 1 else 0)
  | .null => some 0
  | .undef => none

/-- `z.string().min(lo).max(hi)`. -/
def zString (lo hi : Nat) : Json → Option String
  | .str s => if lo ≤ s.length ∧ s.length ≤ hi then some s else none
  | _ => none

/-- `z.coerce.number().int().min(0)`: coerce via `Number`, reject `NaN` and
negatives (`.int()` is vacuous in the integer model). -/
def zCoerceNonnegInt (j : Json) : Option Int :=
  (jsNumber j).bind fun n => if 0 ≤ n then some n else none

/-- `z.string().max(hi).optional().nullable()`; both `undefined` and `null`
are collapsed to `none` (prisma stores either as a NULL column on create). -/
def zOptNullableString (hi : Nat) : Json → Option (Option String)
  | .undef => some none
  | .null => some none
  | .str s => if s.length ≤ hi then some (some s) else none
  | _ => none

/-- `z.enum(["ACTIVE", "DISCONTINUED"])` (no default). -/
def zStatusEnum : Json → Option ItemStatus
  | .str s =>
      if s = "ACTIVE" then some .ACTIVE
      else if s = "DISCONTINUED" then some .DISCONTINUED
      else none
  | _ => none

/-- The raw JSON object posted to the item endpoints (each key possibly
absent). -/
structure ItemBody where
  name : Json := .undef
  sku : Json := .undef
  quantity : Json := .undef
  category : Json := .undef
  location : Json := .undef
  minStock : Json := .undef
  notes : Json := .undef
  status : Json := .undef
deriving DecidableEq, Repr

/-- Output of a successful `itemSchema.parse` (`src/lib/validators.ts`). -/
structure ItemData where
  name : String
  sku : String
  quantity : Int
  category : Option String
  location : Option String
  minStock : Int
  notes : Option String
  status : ItemStatus
deriving DecidableEq, Repr

/-- `itemSchema.safeParse` (`src/lib/validators.ts`): name 2–120, sku 2–80,
quantity coerced non-negative integer, category/location ≤80 optional,
minStock defaulted to 0 when absent, notes ≤240 optional, status defaulted
to ACTIVE when absent. -/
def itemSchemaParse (b : ItemBody) : Option ItemData := do
  let name ← zString 2 120 b.name
  let sku ← zString 2 80 b.sku
  let quantity ← zCoerceNonnegInt b.quantity
  let category ← zOptNullableString 80 b.category
  let location ← zOptNullableString 80 b.location
  let minStock ← match b.minStock with
    | .undef => some 0
    | j => zCoerceNonnegInt j
  let notes ← zOptNullableString 240 b.notes
  let status ← match b.status with
    | .undef => some .ACTIVE
    | j => zStatusEnum j
  pure { name, sku, quantity, category, location, minStock, notes, status }

/-- `.partial()` on a field schema: an absent key is simply absent from the
parsed data (the inner default does not fire under `ZodOptional`). -/
def zPartial {α : Type} (f : Json → Option α) : Json → Option (Option α)
  | .undef => some none
  | j => (f j).map some

/-- Output of a successful `itemUpdateSchema.parse`: each present key is a
field to set (`category`/`location`/`notes` may be set to NULL). -/
structure ItemUpdateData where
  name : Option String
  sku : Option String
  quantity : Option Int
  category : Option (Option String)
  location : Option (Option String)
  minStock : Option Int
  notes : Option (Option String)
  status : Option ItemStatus
deriving DecidableEq, Repr

/-- `itemUpdateSchema.safeParse` (`itemSchema.partial()`). -/
def itemUpdateSchemaParse (b : ItemBody) : Option ItemUpdateData := do
  let name ← zPartial (zString 2 120) b.name
  let sku ← zPartial (zString 2 80) b.sku
  let quantity ← zPartial zCoerceNonnegInt b.quantity
  let category ← zPartial (zOptNullableString 80) b.category
  let location ← zPartial (zOptNullableString 80) b.location
  let minStock ← zPartial zCoerceNonnegInt b.minStock
  let notes ← zPartial (zOptNullableString 240) b.notes
  let status ← zPartial zStatusEnum b.status
  pure { name, sku, quantity, category, location, minStock, notes, status }

/-! ## Responses and store operations -/

/-- JSON response bodies produced by the handlers. -/
inductive Body where
  | err (msg : String)
  | errIssues (msg : String)
  | item (i : Item)
  | items (l : List Item)
  | user (u : PublicUser)
  | success
deriving DecidableEq, Repr

/-- An HTTP response: status code and JSON body. -/
structure Response where
  status : Nat
  body : Body
deriving DecidableEq, Repr

/-- `orderBy: { updatedAt: "desc" }`: `a` may precede `b` when `a` is at
least as recently updated. -/
def itemRecentFirst (a b : Item) : Prop := b.updatedAt ≤ a.updatedAt

instance : DecidableRel itemRecentFirst := fun a b => Nat.decLe b.updatedAt a.updatedAt

instance : IsTotal Item itemRecentFirst :=
  ⟨fun a b => Nat.le_total b.updatedAt a.updatedAt⟩

instance : IsTrans Item itemRecentFirst :=
  ⟨fun _ _ _ h1 h2 => Nat.le_trans h2 h1⟩

/-- `prisma.item.findMany({orderBy: {updatedAt: "desc"}})`. -/
def itemFindManyRecent (store : Store) : List Item :=
  List.insertionSort itemRecentFirst store.items

/-- `prisma.item.findUnique({where: {id}})`. -/
def itemFindById (store : Store) (id : String) : Option Item :=
  store.items.find? (fun i => i.id = id)

/-- The row built by `prisma.item.create({data: {...parsed.data, ownerId}})`
with a fresh generated id and `now` for both timestamps. -/
def mkItem (newId ownerId : String) (d : ItemData) (now : Nat) : Item :=
  { id := newId, ownerId, sku := d.sku, name := d.name, quantity := d.quantity,
    minStock := d.minStock, category := d.category, location := d.location,
    notes := d.notes, status := d.status, createdAt := now, updatedAt := now }

/-- `prisma.item.create`: throws (`Except.error`) on a violation of the
`@@unique([ownerId, sku])` constraint of the schema (the compound key
`ownerId_sku` that `prisma/seed.js` upserts against); the generated `newId`
is assumed fresh. -/
def itemCreate (store : Store) (newId ownerId : String) (d : ItemData)
    (now : Nat) : Except Unit (Item × Store) :=
  if store.items.any (fun i => i.ownerId = ownerId ∧ i.sku = d.sku) then
    .error ()
  else
    let it := mkItem newId ownerId d now
    .ok (it, { store with items := store.items ++ [it] })

/-- The row that `prisma.item.update({where: {id}, data})` writes: each
present field set and `updatedAt` refreshed (the schema's `@updatedAt`).
The write itself goes through `itemUpdateRow`, which carries the P2002
failure of the uniqueness constraint. -/
def applyUpdate (it : Item) (d : ItemUpdateData) (now : Nat) : Item :=
  { it with
    name := d.name.getD it.name,
    sku := d.sku.getD it.sku,
    quantity := d.quantity.getD it.quantity,
    category := d.category.getD it.category,
    location := d.location.getD it.location,
    minStock := d.minStock.getD it.minStock,
    notes := d.notes.getD it.notes,
    status := d.status.getD it.status,
    updatedAt := now }

/-- The write step of `prisma.item.update({where: {id}, data})`: throws
(`Except.error`, prisma's P2002) when the updated row `it'` would collide
with a different row on the `@@unique([ownerId, sku])` key — the same
`ownerId_sku` constraint `itemCreate` checks — otherwise replaces the row. -/
def itemUpdateRow (store : Store) (id : String) (it' : Item) : Except Unit Store :=
  if store.items.any (fun x => x.id ≠ id ∧ x.ownerId = it'.ownerId ∧ x.sku = it'.sku) then
    .error ()
  else
    .ok { store with items := store.items.map (fun x => if x.id = id then it' else x) }

/-! ## Item route handlers (`src/app/api/items/route.ts`,
`src/app/api/items/[id]/route.ts`)

Each handler takes the result of `requireUser` (an `Option PublicUser`) and
the already-JSON-decoded request body, mirroring the source line by line. -/

/-- `GET /api/items`. -/
def itemsGET (user : Option PublicUser) (store : Store) : Response :=
  match user with
  | none => { status := 401, body := .err "Unauthorized" }
  | some _ => { status := 200, body := .items (itemFindManyRecent store) }

/-- `POST /api/items`: auth check, then role check, then schema parse, then
`prisma.item.create` in a `try` whose `catch` answers 500. -/
def itemsPOST (user : Option PublicUser) (body : ItemBody) (store : Store)
    (newId : String) (now : Nat) : Response × Store :=
  match user with
  | none => ({ status := 401, body := .err "Unauthorized" }, store)
  | some u =>
    if u.role ≠ Role.ADMIN then
      ({ status := 403, body := .err "Admin access required" }, store)
    else
      match itemSchemaParse body with
      | none => ({ status := 400, body := .errIssues "Invalid payload" }, store)
      | some d =>
        match itemCreate store newId u.id d now with
        | .error _ => ({ status := 500, body := .err "Could not create item" }, store)
        | .ok (it, store') => ({ status := 201, body := .item it }, store')

/-- `PATCH /api/items/[id]`: auth check, then schema parse, then existence
check, then update — no role or ownership condition anywhere.  The handler
has no `try`/`catch`, so a throw from `prisma.item.update` (a P2002
uniqueness violation) escapes and the framework answers a generic 500. -/
def itemsPATCH (user : Option PublicUser) (id : String) (body : ItemBody)
    (store : Store) (now : Nat) : Response × Store :=
  match user with
  | none => ({ status := 401, body := .err "Unauthorized" }, store)
  | some _ =>
    match itemUpdateSchemaParse body with
    | none => ({ status := 400, body := .errIssues "Invalid payload" }, store)
    | some d =>
      match itemFindById store id with
      | none => ({ status := 404, body := .err "Not found" }, store)
      | some it =>
        match itemUpdateRow store id (applyUpdate it d now) with
        | .error _ => ({ status := 500, body := .err "Internal Server Error" }, store)
        | .ok store' => ({ status := 200, body := .item (applyUpdate it d now) }, store')

/-- `DELETE /api/items/[id]`: auth check, role check, the
`!paramsResolved?.id` guard (absent or empty id, both falsy), then the
combined existence-and-ownership check answering 404, then the delete. -/
def itemsDELETE (user : Option PublicUser) (id : Option String)
    (store : Store) : Response × Store :=
  match user with
  | none => ({ status := 401, body := .err "Unauthorized" }, store)
  | some u =>
    if u.role ≠ Role.ADMIN then
      ({ status := 403, body := .err "Admin access required" }, store)
    else if id = none ∨ id = some "" then
      ({ status := 400, body := .err "Item id missing in route" }, store)
    else
      match id with
      | none => ({ status := 400, body := .err "Item id missing in route" }, store)
      | some i =>
        match itemFindById store i with
        | none => ({ status := 404, body := .err "Not found" }, store)
        | some it =>
          if it.ownerId ≠ u.id then
            ({ status := 404, body := .err "Not found" }, store)
          else
            ({ status := 200, body := .success },
             { store with items := store.items.filter (fun x => ¬ x.id = i) })

/-! ## Auth route handlers (`src/app/api/auth/**`)

bcryptjs is out-of-scope library internals; it is modelled by an executable
stand-in honouring its contract: `compare(p, h)` succeeds exactly when `h`
was produced by `hash(p, 10)`. -/

/-- Model of `bcrypt.hash(password, 10)` (salted slow hash, cost 10). -/
def bcryptHash (password : String) (cost : Nat) : String :=
  "bcrypt$" ++ toString cost ++ "$" ++ password

/-- Model of `bcrypt.compare(password, hash)`. -/
def bcryptCompare (password hash : String) : Bool :=
  hash = bcryptHash password 10

/-- `prisma.user.findUnique({where: {email}})`. -/
def findUserByEmail (store : Store) (email : String) : Option User :=
  store.users.find? (fun u => u.email = email)

/-- `loginSchema.safeParse` (`src/lib/validators.ts`): `z.email()` and a
password of at least 6 characters.  The zod email-format predicate is a
library internal, so the handlers are parameterised by it (`emailOk`). -/
def loginParseOk (emailOk : String → Bool) (email password : String) : Bool :=
  emailOk email && decide (6 ≤ password.length)

/-- `POST /api/auth/login` (`src/app/api/auth/login/route.ts`): shape parse
(400), user lookup by email and hash comparison — both failures answer the
same generic 401 — then session issue, cookie set, public projection. -/
def loginPOST (emailOk : String → Bool) (secret : String) (now : Nat)
    (store : Store) (email password : String) : Response × Option SetCookie :=
  if ¬ loginParseOk emailOk email password then
    ({ status := 400, body := .err "Invalid credentials" }, none)
  else
    match findUserByEmail store email with
    | none => ({ status := 401, body := .err "Invalid email or password" }, none)
    | some u =>
      if ¬ bcryptCompare password u.passwordHash then
        ({ status := 401, body := .err "Invalid email or password" }, none)
      else
        let token := signSession secret now
          { userId := u.id, email := u.email, role := u.role.toStr }
        ({ status := 200, body := .user (publicOfUser u) },
         some (buildSessionCookie token))

/-- `registerSchema.safeParse` (`src/lib/validators.ts`): `z.email()`,
password ≥ 6 chars, name 2–80 chars. -/
def registerParseOk (emailOk : String → Bool) (email password name : String) : Bool :=
  emailOk email && decide (6 ≤ password.length)
    && decide (2 ≤ name.length ∧ name.length ≤ 80)

/-- `POST /api/auth/register` (`src/unnamed/part_000`): shape parse (400),
email-conflict check (409), `bcrypt.hash(password, 10)`, user creation with
the schema's default role MEMBER, session issue, cookie set, and the public
projection (`select {id, email, name, role}`) in the 201 body. -/
def registerPOST (emailOk : String → Bool) (secret : String) (now : Nat)
    (store : Store) (email password name : String) (newId : String) :
    Response × Store × Option SetCookie :=
  if ¬ registerParseOk emailOk email password name then
    ({ status := 400, body := .errIssues "Invalid data" }, store, none)
  else
    match findUserByEmail store email with
    | some _ => ({ status := 409, body := .err "Email already registered" }, store, none)
    | none =>
      let u : User :=
        { id := newId, email, name := some name,
          passwordHash := bcryptHash password 10, role := Role.MEMBER }
      let token := signSession secret now
        { userId := u.id, email := u.email, role := u.role.toStr }
      ({ status := 201, body := .user (publicOfUser u) },
       { store with users := store.users ++ [u] },
       some (buildSessionCookie token))

/-- `POST /api/auth/logout` (`src/unnamed/part_002`): always 200 and the
clearing cookie. -/
def logoutPOST : Response × SetCookie :=
  ({ status := 200, body := .success }, clearSessionCookie)

/-! ## Concrete fixtures used by witnesses and counterexamples -/

def itemA : Item :=
  { id := "i1", ownerId := "a1", sku := "SKU-1", name := "Widget",
    quantity := 5, minStock := 2, category := none, location := none,
    notes := none, status := .ACTIVE, createdAt := 0, updatedAt := 0 }

def adminA : PublicUser :=
  { id := "a1", email := "a@x.com", name := some "Admin A", role := .ADMIN }

def adminB : PublicUser :=
  { id := "b1", email := "b@x.com", name := some "Admin B", role := .ADMIN }

def memberM : PublicUser :=
  { id := "m1", email := "m@x.com", name := some "Member M", role := .MEMBER }

def store1 : Store := { users := [], items := [itemA] }

/-- A second item of the same owner as `itemA`, with a different sku. -/
def itemB : Item :=
  { id := "i2", ownerId := "a1", sku := "SKU-2", name := "Gadget",
    quantity := 3, minStock := 1, category := none, location := none,
    notes := none, status := .ACTIVE, createdAt := 0, updatedAt := 0 }

def store2 : Store := { users := [], items := [itemA, itemB] }

/-- A valid partial-update payload that sets `sku` to `itemA`'s sku. -/
def skuClashBody : ItemBody := { sku := Json.str "SKU-1" }

/-! ## Helper lemmas -/

/-- Unfolding of `requireUser` on a cookie holding a well-formed token. -/
theorem requireUser_tok_eq (secret : String) (now : Nat) (store : Store) (t : Token) :
    requireUser secret now store (some (.tok t)) =
      if t.signedWith = secret ∧ now < t.exp then
        (if t.payload.userId = "" then none else findUserById store t.payload.userId)
      else none := by
  have hne : (CookieVal.tok t = CookieVal.empty) = False := by simp
  simp only [requireUser, requireUserWith, verifySessionWith, jwtVerifyCatch, hne, if_false]
  by_cases hc : t.signedWith = secret ∧ now < t.exp
  · simp [hc]
  · simp [hc]

/-! ## C9 -/

/-- C9: the cookie value written by logout is the empty string, and session
verification treats an empty cookie value as absent: for every verifier
(signature verification is never consulted) and every store, both
`verifySession` and `requireUser` (`currentUser`) return `none` on it. -/
theorem logout_cookie_yields_no_session :
    ∀ (jv : CookieVal → Option SessionPayload) (store : Store),
      clearSessionCookie.value = CookieVal.empty ∧
      verifySessionWith jv (some clearSessionCookie.value) = none ∧
      requireUserWith jv store (some clearSessionCookie.value) = none := by
  intro jv store
  exact ⟨rfl, rfl, rfl⟩

/-! ## C4 -/

/-- C4: `requireUser` (`currentUser`) returns `none` when the session cookie
is absent, empty, malformed, signed with the wrong key, expired (in
particular any `signSession`-issued token once 7 days have passed), or when
the `userId` it carries is not in the store; and whenever it returns a user,
that user is exactly the public projection of the live store record found by
the token's `userId` (role and name come from the record, not the token). -/
theorem requireUser_resolution_spec (secret : String) (now : Nat) (store : Store) :
    requireUser secret now store none = none ∧
    requireUser secret now store (some .empty) = none ∧
    requireUser secret now store (some .malformed) = none ∧
    (∀ t : Token, t.signedWith ≠ secret →
      requireUser secret now store (some (.tok t)) = none) ∧
    (∀ t : Token, t.exp ≤ now →
      requireUser secret now store (some (.tok t)) = none) ∧
    (∀ (p : SessionPayload) (t0 : Nat), t0 + 7 * 24 * 60 * 60 ≤ now →
      requireUser secret now store (some (.tok (signSession secret t0 p))) = none) ∧
    (∀ t : Token, store.users.find? (fun x => x.id = t.payload.userId) = none →
      requireUser secret now store (some (.tok t)) = none) ∧
    (∀ (t : Token) (u : PublicUser),
      requireUser secret now store (some (.tok t)) = some u →
      ∃ rec : User, store.users.find? (fun x => x.id = t.payload.userId) = some rec ∧
        u = publicOfUser rec) := by
  have hexp : ∀ t : Token, t.exp ≤ now →
      requireUser secret now store (some (.tok t)) = none := by
    intro t h
    rw [requireUser_tok_eq]
    rw [if_neg]
    intro hc
    exact absurd hc.2 (Nat.not_lt.mpr h)
  refine ⟨rfl, rfl, rfl, ?_, hexp, ?_, ?_, ?_⟩
  · intro t h
    rw [requireUser_tok_eq, if_neg]
    intro hc
    exact h hc.1
  · intro p t0 h
    exact hexp _ (by simpa [signSession] using h)
  · intro t hfind
    rw [requireUser_tok_eq]
    split
    · simp [findUserById, hfind]
    · rfl
  · intro t u h
    rw [requireUser_tok_eq] at h
    split at h
    · split at h
      · exact absurd h (by simp)
      · rcases Option.map_eq_some'.mp h with ⟨rec, hrec, hu⟩
        exact ⟨rec, hrec, hu.symm⟩
    · exact absurd h (by simp)

/-- C4 witness: a concrete expired token (issued at 0, checked at 7 days)
is rejected by `requireUser`. -/
theorem requireUser_resolution_spec_witness :
    requireUser "k" 604800 store1
        (some (.tok (signSession "k" 0 ⟨"a1", "a@x.com", "ADMIN"⟩))) = none :=
  (requireUser_resolution_spec "k" 604800 store1).2.2.2.2.2.1 ⟨"a1", "a@x.com", "ADMIN"⟩ 0
    (by decide)

/-! ## C8 -/

/-- C8: an unauthenticated list request answers 401; for every authenticated
user the list response is 200 with a permutation of all stored items (no
owner filtering) ordered by `updatedAt` descending (most recently updated
first). -/
theorem list_returns_all_items_recent_first (store : Store) :
    itemsGET none store = { status := 401, body := .err "Unauthorized" } ∧
    ∀ u : PublicUser, ∃ l : List Item,
      itemsGET (some u) store = { status := 200, body := .items l } ∧
      l.Perm store.items ∧
      l.Pairwise (fun a b => b.updatedAt ≤ a.updatedAt) := by
  refine ⟨rfl, fun u => ⟨itemFindManyRecent store, rfl, ?_, ?_⟩⟩
  · exact List.perm_insertionSort itemRecentFirst store.items
  · exact List.sorted_insertionSort itemRecentFirst store.items

/-! ## C6 -/

/-- C6: create and delete by an authenticated non-ADMIN user answer 403 for
every payload (the role check precedes the payload parse, so even an invalid
payload yields 403, not 400), leaving the store unchanged; an unauthenticated
create or delete answers 401 (the authentication check precedes the role
check, which never runs without a user). -/
theorem nonadmin_create_delete_403 (store : Store) :
    (∀ (u : PublicUser) (body : ItemBody) (newId : String) (now : Nat),
      u.role ≠ Role.ADMIN →
      itemsPOST (some u) body store newId now =
        ({ status := 403, body := .err "Admin access required" }, store)) ∧
    (∀ (u : PublicUser) (id : Option String), u.role ≠ Role.ADMIN →
      itemsDELETE (some u) id store =
        ({ status := 403, body := .err "Admin access required" }, store)) ∧
    (∀ (body : ItemBody) (newId : String) (now : Nat),
      itemsPOST none body store newId now =
        ({ status := 401, body := .err "Unauthorized" }, store)) ∧
    (∀ id : Option String,
      itemsDELETE none id store =
        ({ status := 401, body := .err "Unauthorized" }, store)) := by
  refine ⟨?_, ?_, fun _ _ _ => rfl, fun _ => rfl⟩
  · intro u body newId now h
    simp [itemsPOST, h]
  · intro u id h
    simp [itemsDELETE, h]

/-- C6 witness: a concrete MEMBER posting an invalid (empty) payload still
receives 403, not 400, and the store is unchanged. -/
theorem nonadmin_create_delete_403_witness :
    memberM.role ≠ Role.ADMIN ∧
    itemsPOST (some memberM) {} store1 "n1" 7 =
      ({ status := 403, body := .err "Admin access required" }, store1) :=
  ⟨by decide, (nonadmin_create_delete_403 store1).1 memberM {} "n1" 7 (by decide)⟩

/-! ## C2 -/

/-- C2: for an authenticated ADMIN delete of a route id, a missing target and
a target owned by someone else both answer exactly 404 with an unchanged
store — so the response is never 403 — and the item is deleted (exactly the
rows with that id are removed) precisely when it exists and its `ownerId`
equals the requesting admin's id. -/
theorem delete_ownership_scoped_404 (store : Store) (u : PublicUser) (id : String)
    (hadmin : u.role = Role.ADMIN) (hid : id ≠ "") :
    (itemFindById store id = none →
      itemsDELETE (some u) (some id) store =
        ({ status := 404, body := .err "Not found" }, store)) ∧
    (∀ it : Item, itemFindById store id = some it → it.ownerId ≠ u.id →
      itemsDELETE (some u) (some id) store =
        ({ status := 404, body := .err "Not found" }, store)) ∧
    (∀ it : Item, itemFindById store id = some it → it.ownerId = u.id →
      itemsDELETE (some u) (some id) store =
        ({ status := 200, body := .success },
         { store with items := store.items.filter (fun x => ¬ x.id = id) })) ∧
    (itemsDELETE (some u) (some id) store).1.status ≠ 403 := by
  have hrole : ¬ u.role ≠ Role.ADMIN := by simp [hadmin]
  refine ⟨?_, ?_, ?_, ?_⟩
  · intro hnone
    simp [itemsDELETE, hrole, hid, hnone]
  · intro it hit hown
    simp [itemsDELETE, hrole, hid, hit, hown]
  · intro it hit hown
    simp [itemsDELETE, hrole, hid, hit, hown]
  · match hfind : itemFindById store id with
    | none => simp [itemsDELETE, hrole, hid, hfind]
    | some it =>
      by_cases hown : it.ownerId = u.id
      · simp [itemsDELETE, hrole, hid, hfind, hown]
      · simp [itemsDELETE, hrole, hid, hfind, hown]

/-- C2 witness: admin B deleting admin A's concrete item gets exactly 404 with
the store unchanged, and admin A deleting their own item gets 200 with the
item removed. -/
theorem delete_ownership_scoped_404_witness :
    itemsDELETE (some adminB) (some "i1") store1 =
      ({ status := 404, body := .err "Not found" }, store1) ∧
    itemsDELETE (some adminA) (some "i1") store1 =
      ({ status := 200, body := .success }, { store1 with items := [] }) := by
  constructor
  · exact (delete_ownership_scoped_404 store1 adminB "i1" (by decide) (by decide)).2.1
      itemA (by decide) (by decide)
  · have h := (delete_ownership_scoped_404 store1 adminA "i1" (by decide) (by decide)).2.2.1
      itemA (by decide) (by decide)
    simpa using h

/-! ## C5 -/

/-- C5 counterexample: the target id `"i2"` exists in the concrete store, the
payload parses, yet the PATCH answers 500, not 200 — the payload sets `sku`
to a value already held by the same owner's other item, so
`prisma.item.update` throws P2002 and the handler, having no `try`/`catch`,
does not produce the claimed 200. -/
theorem update_duplicate_sku_counterexample :
    itemFindById store2 "i2" = some itemB ∧
    itemUpdateSchemaParse skuClashBody ≠ none ∧
    (itemsPATCH (some memberM) "i2" skuClashBody store2 9).1.status = 500 ∧
    (itemsPATCH (some memberM) "i2" skuClashBody store2 9).1.status ≠ 200 ∧
    (itemsPATCH (some memberM) "i2" skuClashBody store2 9).2 = store2 := by
  decide

/-- C5 amended: for an authenticated user of any role and an update payload
that parses, the PATCH handler's outcome does not depend on which user is
signed in (no role or ownership condition): when the target id exists and
the updated row does not collide with another row on the
`(ownerId, sku)` key, the update is applied (fields set, `updatedAt`
refreshed) and answered 200; when the target id does not exist the answer is
exactly 404 with an unchanged store; and when the updated row does collide,
the uncaught store error surfaces as 500 with an unchanged store. -/
theorem update_no_role_or_ownership (store : Store) (id : String) (body : ItemBody)
    (now : Nat) (d : ItemUpdateData) (hparse : itemUpdateSchemaParse body = some d) :
    (∀ u u' : PublicUser,
      itemsPATCH (some u) id body store now = itemsPATCH (some u') id body store now) ∧
    (itemFindById store id = none → ∀ u : PublicUser,
      itemsPATCH (some u) id body store now =
        ({ status := 404, body := .err "Not found" }, store)) ∧
    (∀ it : Item, itemFindById store id = some it →
      (store.items.any (fun x => x.id ≠ id ∧ x.ownerId = (applyUpdate it d now).ownerId ∧
        x.sku = (applyUpdate it d now).sku)) = false →
      ∀ u : PublicUser,
      itemsPATCH (some u) id body store now =
        ({ status := 200, body := .item (applyUpdate it d now) },
         { store with items := (store.items.map
             (fun x => if x.id = id then applyUpdate it d now else x)) })) ∧
    (∀ it : Item, itemFindById store id = some it →
      (store.items.any (fun x => x.id ≠ id ∧ x.ownerId = (applyUpdate it d now).ownerId ∧
        x.sku = (applyUpdate it d now).sku)) = true →
      ∀ u : PublicUser,
      itemsPATCH (some u) id body store now =
        ({ status := 500, body := .err "Internal Server Error" }, store)) := by
  refine ⟨fun u u' => rfl, ?_, ?_, ?_⟩
  · intro hnone u
    simp [itemsPATCH, hparse, hnone]
  · intro it hit hnoclash u
    have hc : ¬ ∃ x ∈ store.items, ¬ x.id = id ∧ x.ownerId = (applyUpdate it d now).ownerId ∧
        x.sku = (applyUpdate it d now).sku := by
      simpa using hnoclash
    simp [itemsPATCH, hparse, hit, itemUpdateRow, hc]
  · intro it hit hclash u
    have hc : ∃ x ∈ store.items, ¬ x.id = id ∧ x.ownerId = (applyUpdate it d now).ownerId ∧
        x.sku = (applyUpdate it d now).sku := by
      simpa using hclash
    simp [itemsPATCH, hparse, hit, itemUpdateRow, hc]

/-- C5 amended witness: the concrete MEMBER updates the quantity of the item
owned by admin A (no sku collision) and gets 200 with the new quantity
persisted. -/
theorem update_no_role_or_ownership_witness :
    itemsPATCH (some memberM) "i1" { quantity := Json.num 1 } store1 9 =
      ({ status := 200, body := .item { itemA with quantity := 1, updatedAt := 9 } },
       { store1 with items := [{ itemA with quantity := 1, updatedAt := 9 }] }) := by
  have h := (update_no_role_or_ownership store1 "i1" { quantity := Json.num 1 } 9
      { name := none, sku := none, quantity := some 1, category := none,
        location := none, minStock := none, notes := none, status := none }
      (by decide)).2.2.1 itemA (by decide) (by decide) memberM
  simpa [applyUpdate, itemA, store1] using h

/-! ## C3 -/

/-- C3: once the login body passes the shape parse, the handler's answer when
no user has the given email and its answer when a user exists but the hash
comparison fails are the very same response — 401 with body
`"Invalid email or password"` and no cookie — so the two failure causes are
indistinguishable to the caller. -/
theorem login_failures_indistinguishable (emailOk : String → Bool) (secret : String)
    (now : Nat) (email password : String)
    (hok : loginParseOk emailOk email password = true) :
    (∀ store : Store, findUserByEmail store email = none →
      loginPOST emailOk secret now store email password =
        ({ status := 401, body := .err "Invalid email or password" }, none)) ∧
    (∀ (store : Store) (u : User), findUserByEmail store email = some u →
      bcryptCompare password u.passwordHash = false →
      loginPOST emailOk secret now store email password =
        ({ status := 401, body := .err "Invalid email or password" }, none)) := by
  constructor
  · intro store hnone
    simp [loginPOST, hok, hnone]
  · intro store u hu hcmp
    simp [loginPOST, hok, hu, hcmp]

/-- C3 witness: with a concrete store holding one user, a wrong password for
the existing email and a login for an absent email produce the identical
concrete response. -/
theorem login_failures_indistinguishable_witness :
    loginPOST (fun _ => true) "k" 0
        { users := [{ id := "u1", email := "a@x.com", name := none,
                      passwordHash := bcryptHash "hunter2" 10, role := .MEMBER }],
          items := [] } "a@x.com" "wrongpw" =
      ({ status := 401, body := .err "Invalid email or password" }, none) ∧
    loginPOST (fun _ => true) "k" 0
        { users := [{ id := "u1", email := "a@x.com", name := none,
                      passwordHash := bcryptHash "hunter2" 10, role := .MEMBER }],
          items := [] } "b@x.com" "wrongpw" =
      ({ status := 401, body := .err "Invalid email or password" }, none) := by
  constructor
  · exact (login_failures_indistinguishable (fun _ => true) "k" 0 "a@x.com" "wrongpw"
      (by decide)).2
      { users := [{ id := "u1", email := "a@x.com", name := none,
                    passwordHash := bcryptHash "hunter2" 10, role := .MEMBER }],
        items := [] }
      { id := "u1", email := "a@x.com", name := none,
        passwordHash := bcryptHash "hunter2" 10, role := .MEMBER }
      (by decide) (by decide)
  · exact (login_failures_indistinguishable (fun _ => true) "k" 0 "b@x.com" "wrongpw"
      (by decide)).1
      { users := [{ id := "u1", email := "a@x.com", name := none,
                    passwordHash := bcryptHash "hunter2" 10, role := .MEMBER }],
        items := [] }
      (by decide)

/-! ## C7 -/

/-- C7: a valid registration for a fresh email answers 201 whose body is
exactly the public user projection of the created user — the four keys of the
prisma select (`id`, `email`, `name`, `role`), among which no password-hash
key appears — while the created store row does carry the hash. -/
theorem register_returns_public_projection (emailOk : String → Bool) (secret : String)
    (now : Nat) (store : Store) (email password name newId : String)
    (hok : registerParseOk emailOk email password name = true)
    (hfree : findUserByEmail store email = none) :
    (registerPOST emailOk secret now store email password name newId).1 =
      { status := 201,
        body := .user { id := newId, email := email, name := some name,
                        role := Role.MEMBER } } ∧
    publicUserKeys = ["id", "email", "name", "role"] ∧
    "passwordHash" ∉ publicUserKeys ∧
    (registerPOST emailOk secret now store email password name newId).2.1.users =
      store.users ++ [{ id := newId, email := email, name := some name,
                        passwordHash := bcryptHash password 10, role := Role.MEMBER }] := by
  refine ⟨?_, rfl, by decide, ?_⟩
  · simp [registerPOST, hok, hfree, publicOfUser]
  · simp [registerPOST, hok, hfree]

/-- C7 witness: a concrete valid registration on the empty store. -/
theorem register_returns_public_projection_witness :
    (registerPOST (fun _ => true) "k" 0 { users := [], items := [] }
        "a@x.com" "secret1" "Alex" "u9").1 =
      { status := 201,
        body := .user { id := "u9", email := "a@x.com", name := some "Alex",
                        role := Role.MEMBER } } :=
  (register_returns_public_projection (fun _ => true) "k" 0 { users := [], items := [] }
    "a@x.com" "secret1" "Alex" "u9" (by decide) (by decide)).1

/-! ## C1 -/

/-- A concrete valid create payload whose sku duplicates `itemA`'s. -/
def dupBody : ItemBody :=
  { name := Json.str "Widget", sku := Json.str "SKU-1", quantity := Json.num 5 }

/-- C1 counterexample: admin A creating an item whose `(creatorId, sku)` pair
already exists in the concrete store receives status 500, not the 409 the
claim states (the handler's catch-all converts the store's uniqueness
violation to 500 "Could not create item"). -/
theorem create_duplicate_sku_counterexample :
    store1.items.any (fun i => i.ownerId = adminA.id ∧ i.sku = "SKU-1") = true ∧
    itemSchemaParse dupBody ≠ none ∧
    (itemsPOST (some adminA) dupBody store1 "n1" 0).1.status = 500 ∧
    (itemsPOST (some adminA) dupBody store1 "n1" 0).1.status ≠ 409 := by
  decide

/-- C1 amended: for every authenticated ADMIN create request whose payload
parses and whose `(creatorId, sku)` pair already exists in the store, the
handler answers 500 with "Could not create item" (the catch around
`prisma.item.create`), and no new item is persisted (the store is returned
unchanged). -/
theorem create_duplicate_sku_500 (store : Store) (u : PublicUser) (body : ItemBody)
    (newId : String) (now : Nat) (d : ItemData)
    (hadmin : u.role = Role.ADMIN) (hparse : itemSchemaParse body = some d)
    (hdup : store.items.any (fun i => i.ownerId = u.id ∧ i.sku = d.sku) = true) :
    itemsPOST (some u) body store newId now =
      ({ status := 500, body := .err "Could not create item" }, store) := by
  have hrole : ¬ u.role ≠ Role.ADMIN := by simp [hadmin]
  have hdup' : ∃ x ∈ store.items, x.ownerId = u.id ∧ x.sku = d.sku := by
    simpa using hdup
  simp [itemsPOST, hrole, hparse, itemCreate, hdup']

/-- C1 amended witness: the concrete duplicate create from the
counterexample's input, with the full 500 response and unchanged store. -/
theorem create_duplicate_sku_500_witness :
    itemsPOST (some adminA) dupBody store1 "n1" 0 =
      ({ status := 500, body := .err "Could not create item" }, store1) :=
  create_duplicate_sku_500 store1 adminA dupBody "n1" 0
    { name := "Widget", sku := "SKU-1", quantity := 5, category := none,
      location := none, minStock := 0, notes := none, status := .ACTIVE }
    (by decide) (by decide) (by decide)

/-! ## C10 -/

/-- C10: a string-encoded number in the `quantity` or `minStock` field is
coerced before the integer and non-negativity checks: it passes the field
validator with the numeric value, and both the create and the update schema
parse it exactly as they parse the corresponding numeric payload, so the
persisted value is numeric. -/
theorem string_encoded_numbers_coerced (s : String) (n : Int) (b : ItemBody)
    (h : jsStringToNumber s = some n) (hn : 0 ≤ n) :
    zCoerceNonnegInt (Json.str s) = some n ∧
    itemSchemaParse { b with quantity := Json.str s } =
      itemSchemaParse { b with quantity := Json.num n } ∧
    itemSchemaParse { b with minStock := Json.str s } =
      itemSchemaParse { b with minStock := Json.num n } ∧
    itemUpdateSchemaParse { b with quantity := Json.str s } =
      itemUpdateSchemaParse { b with quantity := Json.num n } ∧
    itemUpdateSchemaParse { b with minStock := Json.str s } =
      itemUpdateSchemaParse { b with minStock := Json.num n } ∧
    (∀ (user : Option PublicUser) (store : Store) (newId : String) (now : Nat),
      itemsPOST user { b with quantity := Json.str s } store newId now =
        itemsPOST user { b with quantity := Json.num n } store newId now) := by
  have h1 : zCoerceNonnegInt (Json.str s) = some n := by
    simp [zCoerceNonnegInt, jsNumber, h, hn]
  have h2 : zCoerceNonnegInt (Json.num n) = some n := by
    simp [zCoerceNonnegInt, jsNumber, hn]
  have hqe : zCoerceNonnegInt (Json.str s) = zCoerceNonnegInt (Json.num n) :=
    h1.trans h2.symm
  have hq : itemSchemaParse { b with quantity := Json.str s } =
      itemSchemaParse { b with quantity := Json.num n } := by
    cases b
    simp only [itemSchemaParse]
    rw [hqe]
  refine ⟨h1, hq, ?_, ?_, ?_, ?_⟩
  · cases b
    simp only [itemSchemaParse]
    rw [hqe]
  · cases b
    simp only [itemUpdateSchemaParse, zPartial]
    rw [hqe]
  · cases b
    simp only [itemUpdateSchemaParse, zPartial]
    rw [hqe]
  · intro user store newId now
    cases user with
    | none => rfl
    | some u => simp only [itemsPOST, hq]

/-- C10 witness: the create payload with quantity `"5"` parses identically to
the one with quantity `5`, and the field validator yields the number 5. -/
theorem string_encoded_numbers_coerced_witness :
    zCoerceNonnegInt (Json.str "5") = some 5 ∧
    itemSchemaParse { dupBody with quantity := Json.str "5" } =
      itemSchemaParse { dupBody with quantity := Json.num 5 } := by
  have h := string_encoded_numbers_coerced "5" 5 dupBody (by decide) (by decide)
  exact ⟨h.1, h.2.1⟩
